import Mathlib

/-!
# Verification of `voice-memo-clip-player` (`src/main.rs`)

A shallow embedding of the program in Lean 4. The program reads an Apple
Voice Memos SQLite database (read-only), selects a random memo longer than
30 seconds, picks a random 30-second window, and shells out to `ffmpeg`,
`curl`, the `open` command and VLC to build and play a slideshow video.

Modelling conventions:
* SQLite cell values are modelled by `SqlCell` (NULL, numeric storage,
  TEXT, BLOB); `rusqlite` column conversions (`row.get::<_, f64>`,
  `row.get::<_, String>`) become `SqlCell.getReal` / `SqlCell.getString`,
  which return `none` exactly when the Rust conversion returns `Err`.
* Rust `f64` values carried by the program (durations, timestamps, random
  offsets) are modelled as rationals `ℚ`; the comparisons and the exact
  conversions exercised by the claims are exact in `f64` as well.
* Side effects (printing, process spawning, file writes) are reified into
  an explicit `Effect` trace produced by `mainRun`; inputs that the real
  program obtains from the outside world (database rows, random draws,
  file-existence checks, subprocess exit statuses and stderr text) are
  fields of a `World` record.
-/

namespace VoiceMemoClip

/-! ## SQLite value layer

`SqlCell` models the storage class of one cell of the `ZCLOUDRECORDING`
table. `real` covers both INTEGER and REAL storage (either converts to
`f64` in `rusqlite`). -/

inductive SqlCell where
  | null
  | real (q : ℚ)
  | text (s : String)
  | blob
deriving DecidableEq

/-- Conversion of a cell to `String` (`row.get::<_, String>` in `rusqlite`):
succeeds only on TEXT storage. -/
def SqlCell.getString : SqlCell → Option String
  | .text s => some s
  | _ => none

/-- Conversion of a cell to `f64` (`row.get::<_, f64>` in `rusqlite`):
succeeds only on numeric (INTEGER or REAL) storage. -/
def SqlCell.getReal : SqlCell → Option ℚ
  | .real q => some q
  | _ => none

/-- SQLite evaluation of `cell > t` for a numeric literal `t`, as used by
the `WHERE ZDURATION > 30.0` clause. SQLite orders storage classes
NULL < numeric < TEXT < BLOB, and a comparison against NULL is not true. -/
def SqlCell.gtNum (c : SqlCell) (t : ℚ) : Bool :=
  match c with
  | .null => false
  | .real q => decide (t < q)
  | .text _ => true
  | .blob => true

/-! ## Data model -/

/-- One row of the `ZCLOUDRECORDING` table, restricted to the five columns
the query selects. -/
structure DbRow where
  zencryptedtitle : SqlCell
  zcustomlabel : SqlCell
  zdate : SqlCell
  zduration : SqlCell
  zpath : SqlCell
deriving DecidableEq

/-- The `VoiceMemo` struct of `main.rs`. -/
structure VoiceMemo where
  title : String
  date : ℚ
  duration : ℚ
  path : String
deriving DecidableEq

/-- Title fallback of the row-mapping closure in `get_all_voice_memos`:
`row.get(0).or_else(|_| row.get(1)).unwrap_or_else(|_| "Untitled")`. -/
def resolveTitle : Option String → Option String → String
  | some s, _ => s
  | none, some s => s
  | none, none => "Untitled"

/-- The `WHERE ZDURATION > 30.0` predicate of the SQL query. -/
def durationFilter (r : DbRow) : Bool :=
  r.zduration.gtNum 30

/-- The rows returned by the prepared statement: the table filtered by the
`WHERE` clause. -/
def queryRows (table : List DbRow) : List DbRow :=
  table.filter durationFilter

/-- The row-mapping closure passed to `query_map`: builds a `VoiceMemo`
from a row, failing (`none`, the `Err` case in Rust) when the date,
duration or path column fails conversion. The title lookup never fails. -/
def rowToMemo (r : DbRow) : Option VoiceMemo :=
  match r.zdate.getReal, r.zduration.getReal, r.zpath.getString with
  | some d, some dur, some p =>
      some ⟨resolveTitle r.zencryptedtitle.getString r.zcustomlabel.getString, d, dur, p⟩
  | _, _, _ => none

/-- The candidate that a single source row contributes to the result of
`get_all_voice_memos`: `none` when the row is excluded by the SQL filter
or dropped by `filter_map(|r| r.ok())`. -/
def candidateOfRow (r : DbRow) : Option VoiceMemo :=
  if durationFilter r then rowToMemo r else none

/-- The function `get_all_voice_memos`: opens the database read-only, runs the query and
maps the rows, silently dropping rows whose conversion failed
(`filter_map(|r| r.ok())`). `dbOk` stands for the success of the
open / prepare / query steps (each propagates its error with `?`). -/
def get_all_voice_memos (dbOk : Bool) (table : List DbRow) :
    Except String (List VoiceMemo) :=
  if dbOk then .ok ((queryRows table).filterMap rowToMemo)
  else .error "unable to open database"

/-! ## Timestamp conversion -/

/-- Days from 1970-01-01 to the civil date `y-m-d` (proleptic Gregorian),
used to give meaning to concrete Unix timestamps. -/
def daysFromCivil (y : Int) (m d : Int) : Int :=
  let yAdj : Int := if m ≤ 2 then y - 1 else y
  let era : Int := yAdj / 400
  let yoe : Int := yAdj - era * 400
  let mp : Int := (m + 9) % 12
  let doy : Int := (153 * mp + 2) / 5 + d - 1
  let doe : Int := yoe * 365 + yoe / 4 - yoe / 100 + doy
  era * 146097 + doe - 719468

/-- Unix timestamp (seconds) of `y-m-d h:mi:s` UTC. -/
def civilToUnixSeconds (y m d h mi s : Int) : Int :=
  daysFromCivil y m d * 86400 + h * 3600 + mi * 60 + s

/-- Rust `f64 as i64`: truncation toward zero (for `q = num / den` with
`den > 0` this is `num.tdiv den`), saturating at the `i64` range (`ℚ` has
no NaN, so the NaN-to-0 case does not arise). -/
def f64_as_i64 (q : ℚ) : Int :=
  max (-(2 ^ 63)) (min (2 ^ 63 - 1) (q.num.tdiv q.den))

/-- The function `core_data_to_unix_timestamp`: adds the Core Data epoch offset
(978307200 seconds) and casts to `i64`. -/
def core_data_to_unix_timestamp (coreDataTimestamp : ℚ) : Int :=
  f64_as_i64 (coreDataTimestamp + 978307200)

/-- Smallest Unix timestamp representable by `chrono` (`NaiveDate::MIN` is
January 1 of astronomical year −262144). -/
def chronoMinSecs : Int := civilToUnixSeconds (-262144) 1 1 0 0 0

/-- Largest Unix timestamp representable by `chrono` (`NaiveDate::MAX` is
December 31 of year 262143). -/
def chronoMaxSecs : Int := civilToUnixSeconds 262143 12 31 23 59 59

/-- Model of `DateTime::<Utc>::from_timestamp(secs, 0)`: `none` exactly when the
timestamp is outside the representable range of chrono. The datetime itself is
represented by its Unix timestamp. -/
def chronoFromTimestamp (secs : Int) : Option Int :=
  if chronoMinSecs ≤ secs ∧ secs ≤ chronoMaxSecs then some secs else none

/-- Line 292 of `main.rs`:
`DateTime::<Utc>::from_timestamp(ts, 0).unwrap_or_else(|| Utc::now())`. -/
def resolveDatetime (ts now : Int) : Int :=
  (chronoFromTimestamp ts).getD now

/-! ## Random selection -/

/-- The value `max_start` of `main.rs` line 287: `memo.duration - 30.0`. -/
def max_start (duration : ℚ) : ℚ := duration - 30

/-- The set of values that `gen_range(lo..hi)` of the `rand` crate can return for floats:
the half-open interval `[lo, hi)`. -/
def gen_range_mem (lo hi x : ℚ) : Prop := lo ≤ x ∧ x < hi

/-! ## Effect traces

Side effects of the program are reified as an explicit trace. A `Target`
is a file the program touches: the source database, a source recording
(referenced by its relative path), or a file inside the per-run temporary
directory. -/

inductive Target where
  | dbFile
  | sourceMedia (path : String)
  | tempFile (name : String)
deriving DecidableEq

/-- One observable side effect of the program. `runProcess` records the
command, its argument list, and the files it reads and writes;
`spawnProcess` is a fire-and-forget spawn (the VLC `open` call). -/
inductive Effect where
  | openDb (readOnly : Bool)
  | sqlQuery
  | printOut (s : String)
  | printErr (s : String)
  | checkExists (t : Target)
  | createDir (t : Target)
  | writeFile (t : Target)
  | removeFile (t : Target)
  | runProcess (cmd : String) (args : List String) (reads writes : List Target)
  | spawnProcess (cmd : String) (args : List String) (reads : List Target)
deriving DecidableEq

/-- The targets an effect writes or mutates. A read-write database open
could write to the database file; a read-only open cannot. -/
def Effect.writes : Effect → List Target
  | .openDb ro => if ro then [] else [.dbFile]
  | .createDir t => [t]
  | .writeFile t => [t]
  | .removeFile t => [t]
  | .runProcess _ _ _ ws => ws
  | _ => []

/-- Whether a target is owned by the source Voice Memos store (the
database or a source recording), as opposed to the temporary directory. -/
def Target.isSource : Target → Bool
  | .dbFile => true
  | .sourceMedia _ => true
  | .tempFile _ => false

/-- Process exit status (`status.success()`) and captured stderr of one
subprocess invocation. -/
structure ProcResult where
  success : Bool
  stderr : String
deriving DecidableEq

/-- How one run of `main` ends: normal `Ok(())` return (exit status 0),
an `Err` return (exit status non-zero, message printed), or a panic
(missing `HOME`). -/
inductive Outcome where
  | success
  | failure (msg : String)
  | panicked
deriving DecidableEq

/-- Everything the real program obtains from the outside world during one
run: environment, database contents and health, random draws, filesystem
answers, and the result of each subprocess invocation. -/
structure World where
  /-- whether the `HOME` environment variable is set -/
  homeSet : Bool
  /-- whether opening / preparing / querying the database succeeds -/
  dbOk : Bool
  /-- the rows of the `ZCLOUDRECORDING` table -/
  table : List DbRow
  /-- the draw of `rng.gen_range(0..memos.len())` -/
  memoIdx : Nat
  /-- the draw of `rng.gen_range(0.0..max_start)` -/
  startDraw : ℚ
  /-- Value of `Utc::now()`, as a Unix timestamp -/
  now : Int
  /-- answer of `full_path.exists()` -/
  fileExists : Bool
  /-- whether `fs::create_dir_all` on the temp directory succeeds -/
  tempDirOk : Bool
  /-- result of the `ffmpeg` audio-extraction invocation -/
  ffmpegExtract : ProcResult
  /-- per-image draw of `rng.gen_range(1..1000)` -/
  seed : Nat → Nat
  /-- whether the `i`-th `curl` invocation exits successfully -/
  curlOk : Nat → Bool
  /-- size in bytes of the `i`-th downloaded image -/
  imageLen : Nat → Nat
  /-- whether `fs::write` of the ffmpeg concat file succeeds -/
  concatWriteOk : Bool
  /-- result of the `ffmpeg` video-creation invocation -/
  ffmpegVideo : ProcResult
  /-- whether spawning the VLC `open` command succeeds -/
  vlcSpawnOk : Bool

/-! ## The subprocess helpers -/

/-- The loop body of `download_public_domain_images`, iterating `i` from
the current index while `n` iterations remain. Each iteration runs `curl`
into `image_i.jpg`, fails if curl fails or the file is under 10000 bytes,
and otherwise prints a progress dot and continues. -/
def downloadLoop (w : World) : Nat → Nat → List Effect × Except String (List String)
  | _, 0 => ([], .ok [])
  | i, n + 1 =>
    let img := "image_" ++ toString i ++ ".jpg"
    let url := "https://picsum.photos/1920/1080?random=" ++ toString (w.seed i + i)
    let curlEff := Effect.runProcess "curl" ["-L", "-s", "-o", img, url] [] [.tempFile img]
    if w.curlOk i = false then
      ([curlEff], .error ("Failed to download image " ++ toString i))
    else if w.imageLen i < 10000 then
      ([curlEff], .error ("Downloaded image " ++ toString i ++ " is too small (likely invalid)"))
    else
      let rest := downloadLoop w (i + 1) n
      (curlEff :: Effect.printOut "." :: rest.1, rest.2.map (fun l => img :: l))

/-- The function `download_public_domain_images`: announces the download, runs the
loop, and prints " Done!" on success. Returns the image file names. -/
def download_public_domain_images (w : World) (count : Nat) :
    List Effect × Except String (List String) :=
  let intro := Effect.printOut ("Downloading " ++ toString count
    ++ " public domain images from Picsum...")
  let r := downloadLoop w 0 count
  match r.2 with
  | .ok imgs => (intro :: r.1 ++ [Effect.printOut " Done!"], .ok imgs)
  | .error e => (intro :: r.1, .error e)

/-- The `-metadata comment=` value of the video-creation `ffmpeg` call
(a Rust format string prefixed with Original recording date; the textual
date rendering of chrono is abstracted to the decimal rendering of the
timestamp). -/
def videoComment (date : Int) : String :=
  "Original recording date: " ++ toString date

/-- The function `create_video_with_images`: writes the ffmpeg concat file, runs
`ffmpeg` to composite the images with the audio clip, surfaces stderr on a
non-zero exit, and removes the concat file. Returns the video file name. -/
def create_video_with_images (w : World) (audio : String) (imgs : List String)
    (originalDate : Int) : List Effect × Except String String :=
  let concat := "concat.txt"
  let video := "voice_memo_video.mp4"
  let pre := [Effect.printOut "Creating video slideshow...",
    Effect.writeFile (.tempFile concat)]
  if w.concatWriteOk = false then
    (pre, .error "failed to write concat file")
  else
    let args := ["-f", "concat", "-safe", "0", "-i", concat, "-i", audio,
      "-c:v", "libx264", "-tune", "stillimage",
      "-vf", "scale=1920:1080:force_original_aspect_ratio=decrease,pad=1920:1080:(ow-iw)/2:(oh-ih)/2",
      "-c:a", "aac", "-b:a", "192k", "-pix_fmt", "yuv420p", "-r", "25", "-shortest",
      "-metadata", "comment=" ++ videoComment originalDate, "-y", video]
    let run := Effect.runProcess "ffmpeg" args
      (.tempFile concat :: .tempFile audio :: imgs.map .tempFile) [.tempFile video]
    if w.ffmpegVideo.success = false then
      (pre ++ [run], .error ("ffmpeg video creation failed: " ++ w.ffmpegVideo.stderr))
    else
      (pre ++ [run, Effect.removeFile (.tempFile concat),
        Effect.printOut ("Video created: " ++ video)], .ok video)

/-- The function `extract_and_create_video`: creates the temp directory, extracts the
30-second audio clip with `ffmpeg` (surfacing stderr on a non-zero exit),
downloads six placeholder images, builds the slideshow video, cleans up
the intermediate files, and spawns VLC on the result. -/
def extract_and_create_video (w : World) (sourcePath : String)
    (startSec durationSec : ℚ) (originalDate : Int) :
    List Effect × Except String String :=
  let clip := "audio_clip.m4a"
  let mkdir := Effect.createDir (.tempFile "voice_memo_tmp")
  if w.tempDirOk = false then
    ([mkdir], .error "failed to create temp directory")
  else
    let extractArgs := ["-ss", toString startSec, "-i", sourcePath,
      "-t", toString durationSec, "-c", "copy", "-y", clip]
    let extractRun := Effect.runProcess "ffmpeg" extractArgs
      [.sourceMedia sourcePath] [.tempFile clip]
    let pre := [mkdir, Effect.printOut "Extracting 30-second audio clip...", extractRun]
    if w.ffmpegExtract.success = false then
      (pre, .error ("ffmpeg audio extraction failed: " ++ w.ffmpegExtract.stderr))
    else
      let pre := pre ++ [Effect.printOut "Audio extracted."]
      let dl := download_public_domain_images w 6
      match dl.2 with
      | .error e => (pre ++ dl.1, .error e)
      | .ok imgs =>
        let cv := create_video_with_images w clip imgs originalDate
        match cv.2 with
        | .error e => (pre ++ dl.1 ++ cv.1, .error e)
        | .ok video =>
          let cleanup := imgs.map (fun img => Effect.removeFile (.tempFile img))
            ++ [Effect.removeFile (.tempFile clip)]
          let spawn := Effect.spawnProcess "open" ["-a", "VLC", video] [.tempFile video]
          let tail := cleanup ++ [Effect.printOut "Opening with VLC...", spawn]
          (pre ++ dl.1 ++ cv.1 ++ tail,
            if w.vlcSpawnOk = false then .error "failed to spawn player" else .ok video)

/-! ## `main` -/

/-- The candidate memos of a run: the result of `get_all_voice_memos`. -/
def candidatesOf (w : World) : List VoiceMemo :=
  (queryRows w.table).filterMap rowToMemo

/-- Placeholder memo for the (unreachable) out-of-bounds index. -/
def defaultMemo : VoiceMemo := ⟨"", 0, 0, ""⟩

/-- The memo picked by `memos[rng.gen_range(0..memos.len())]`. The modulo
keeps the lookup total; the real draw is already `< memos.len()`. -/
def selectedMemo (w : World) : VoiceMemo :=
  (candidatesOf w).getD (w.memoIdx % (candidatesOf w).length) defaultMemo

/-- The datetime shown for the selected memo (line 291–292 of `main.rs`):
Core Data timestamp converted to Unix, with the out-of-range `None` of chrono
replaced by `Utc::now()`. -/
def selectedDatetime (w : World) : Int :=
  resolveDatetime (core_data_to_unix_timestamp (selectedMemo w).date) w.now

/-- The 51-character separator line of the console banner. -/
def bannerLine : String := String.mk (List.replicate 51 '\u2550')

/-- The `fn main` of `main.rs`, as an effect trace plus an outcome. -/
def mainRun (w : World) : List Effect × Outcome :=
  let load := Effect.printOut "Loading Voice Memos library..."
  if w.homeSet = false then
    ([load], .panicked)
  else
    match get_all_voice_memos w.dbOk w.table with
    | .error e => ([load, .openDb true], .failure e)
    | .ok memos =>
      let dbEffs := [Effect.openDb true, Effect.sqlQuery]
      if memos.isEmpty then
        (load :: dbEffs
          ++ [.printErr "No voice memos found (longer than 30 seconds)."], .success)
      else
        let memo := memos.getD (w.memoIdx % memos.length) defaultMemo
        let startTime := w.startDraw
        let datetime := selectedDatetime w
        let banner := [Effect.printOut ("Found " ++ toString memos.length
            ++ " voice memos longer than 30 seconds."),
          Effect.printOut bannerLine,
          Effect.printOut "  Random Voice Memo Clip",
          Effect.printOut bannerLine,
          Effect.printOut ("Title:    " ++ memo.title),
          Effect.printOut ("Date:     " ++ toString datetime),
          Effect.printOut ("Duration: " ++ toString memo.duration ++ " seconds"),
          Effect.printOut ("Clip:     " ++ toString startTime ++ "s - "
            ++ toString (startTime + 30) ++ "s (30 seconds)"),
          Effect.printOut bannerLine]
        let checkEff := Effect.checkExists (.sourceMedia memo.path)
        if w.fileExists = false then
          (load :: dbEffs ++ banner ++ [checkEff,
            .printErr ("Error: Recording file not found at " ++ memo.path),
            .printErr "The recording may be in iCloud and not downloaded locally."],
            .success)
        else
          let r := extract_and_create_video w memo.path startTime 30 datetime
          match r.2 with
          | .error e => (load :: dbEffs ++ banner ++ [checkEff] ++ r.1, .failure e)
          | .ok video =>
            (load :: dbEffs ++ banner ++ [checkEff] ++ r.1
              ++ [.printOut "VLC should now be playing the video.",
                .printOut ("Video file: " ++ video),
                .printOut "You can delete it manually or it will be cleaned up on reboot."],
              .success)

/-! ## Shared lemmas -/

lemma filterMap_filter_eq {α β : Type} (p : α → Bool) (f : α → Option β) (t : List α) :
    (t.filter p).filterMap f = t.filterMap fun a => if p a then f a else none := by
  induction t with
  | nil => rfl
  | cons a t ih => cases h : p a <;> simp [List.filter_cons, h, List.filterMap_cons, ih]

lemma rowToMemo_eq_none {r : DbRow}
    (h : r.zdate.getReal = none ∨ r.zduration.getReal = none ∨ r.zpath.getString = none) :
    rowToMemo r = none := by
  unfold rowToMemo
  rcases h with h | h | h <;>
    cases h1 : r.zdate.getReal <;> cases h2 : r.zduration.getReal <;>
      cases h3 : r.zpath.getString <;> simp_all

lemma duration_gt_30_of_mem_candidates {w : World} {m : VoiceMemo}
    (hm : m ∈ candidatesOf w) : 30 < m.duration := by
  unfold candidatesOf queryRows at hm
  obtain ⟨r, hr, hmap⟩ := List.mem_filterMap.mp hm
  have hfil : durationFilter r = true := (List.mem_filter.mp hr).2
  unfold rowToMemo at hmap
  cases hc : r.zduration with
  | real q =>
    have hq : r.zduration.getReal = some q := by rw [hc]; rfl
    cases h1 : r.zdate.getReal <;> cases h3 : r.zpath.getString <;>
      simp [h1, hq, h3] at hmap
    have : m.duration = q := by rw [← hmap]
    rw [this]
    have := hfil
    rw [durationFilter, hc] at this
    exact of_decide_eq_true this
  | null =>
    have hq : r.zduration.getReal = none := by rw [hc]; rfl
    cases h1 : r.zdate.getReal <;> simp [h1, hq] at hmap
  | text s =>
    have hq : r.zduration.getReal = none := by rw [hc]; rfl
    cases h1 : r.zdate.getReal <;> simp [h1, hq] at hmap
  | blob =>
    have hq : r.zduration.getReal = none := by rw [hc]; rfl
    cases h1 : r.zdate.getReal <;> simp [h1, hq] at hmap

lemma selectedMemo_mem_candidates {w : World} (hne : candidatesOf w ≠ []) :
    selectedMemo w ∈ candidatesOf w := by
  have hlen : 0 < (candidatesOf w).length := List.length_pos.mpr hne
  have hlt : w.memoIdx % (candidatesOf w).length < (candidatesOf w).length :=
    Nat.mod_lt _ hlen
  unfold selectedMemo
  rw [List.getD_eq_getElem?_getD, List.getElem?_eq_getElem hlt]
  exact List.getElem_mem hlt

/-! ## Claims -/

/-- Claim C1: the candidate set returned by `get_all_voice_memos` is the
per-row image of `candidateOfRow`, and a well-typed record contributes a
candidate if and only if its duration strictly exceeds 30 seconds; a
record whose duration is exactly 30.0 is excluded. -/
theorem candidate_iff_duration_gt_30 (table : List DbRow) (r : DbRow) (d q : ℚ) (p : String)
    (hdur : r.zduration = .real d) (hdate : r.zdate = .real q) (hpath : r.zpath = .text p) :
    get_all_voice_memos true table = .ok (table.filterMap candidateOfRow)
    ∧ ((candidateOfRow r).isSome ↔ 30 < d)
    ∧ (d = 30 → candidateOfRow r = none) := by
  refine ⟨?_, ?_, ?_⟩
  · rw [get_all_voice_memos, if_pos rfl, queryRows, filterMap_filter_eq]
    rfl
  · rw [candidateOfRow, durationFilter, hdur]
    cases hlt : (SqlCell.real d).gtNum 30 with
    | true =>
      rw [if_pos rfl]
      rw [SqlCell.gtNum] at hlt
      simp [rowToMemo, hdate, hdur, hpath, SqlCell.getReal, SqlCell.getString,
        of_decide_eq_true hlt]
    | false =>
      rw [if_neg (by simp [hlt])]
      rw [SqlCell.gtNum] at hlt
      simp [of_decide_eq_false hlt]
  · intro h
    rw [candidateOfRow, durationFilter, hdur, SqlCell.gtNum, h]
    simp

/-- Witness for claim C1 at a concrete row with duration 31. -/
theorem candidate_iff_duration_gt_30_witness :
    get_all_voice_memos true [⟨.null, .null, .real 5, .real 31, .text "a.m4a"⟩]
      = .ok ([⟨.null, .null, .real 5, .real 31, .text "a.m4a"⟩].filterMap candidateOfRow)
    ∧ ((candidateOfRow ⟨.null, .null, .real 5, .real 31, .text "a.m4a"⟩).isSome ↔ (30 : ℚ) < 31)
    ∧ ((31 : ℚ) = 30 → candidateOfRow ⟨.null, .null, .real 5, .real 31, .text "a.m4a"⟩ = none) :=
  candidate_iff_duration_gt_30 [⟨.null, .null, .real 5, .real 31, .text "a.m4a"⟩]
    ⟨.null, .null, .real 5, .real 31, .text "a.m4a"⟩ 31 5 "a.m4a" rfl rfl rfl

/-- Claim C2: the selected memo has duration above 30 seconds, and every
possible draw of `rng.gen_range(0.0..max_start)` satisfies
`0 ≤ start ≤ duration − 30` and `start + 30 ≤ duration`. -/
theorem start_offset_within_bounds (w : World) (x : ℚ)
    (hne : candidatesOf w ≠ [])
    (hx : gen_range_mem 0 (max_start (selectedMemo w).duration) x) :
    30 < (selectedMemo w).duration
    ∧ 0 ≤ x ∧ x ≤ (selectedMemo w).duration - 30
    ∧ x + 30 ≤ (selectedMemo w).duration := by
  have hdur := duration_gt_30_of_mem_candidates (selectedMemo_mem_candidates hne)
  obtain ⟨h0, h1⟩ := hx
  rw [max_start] at h1
  exact ⟨hdur, h0, le_of_lt h1, by linarith⟩

/-- Witness for claim C2: a single 40-second memo and the draw `x = 5`. -/
theorem start_offset_within_bounds_witness :
    (30 : ℚ) < (selectedMemo (World.mk true true
        [⟨.null, .null, .real 0, .real 40, .text "a"⟩] 0 5 0 true true ⟨true, ""⟩
        (fun _ => 1) (fun _ => true) (fun _ => 20000) true ⟨true, ""⟩ true)).duration
    ∧ (0 : ℚ) ≤ 5
    ∧ (5 : ℚ) ≤ (selectedMemo (World.mk true true
        [⟨.null, .null, .real 0, .real 40, .text "a"⟩] 0 5 0 true true ⟨true, ""⟩
        (fun _ => 1) (fun _ => true) (fun _ => 20000) true ⟨true, ""⟩ true)).duration - 30
    ∧ (5 : ℚ) + 30 ≤ (selectedMemo (World.mk true true
        [⟨.null, .null, .real 0, .real 40, .text "a"⟩] 0 5 0 true true ⟨true, ""⟩
        (fun _ => 1) (fun _ => true) (fun _ => 20000) true ⟨true, ""⟩ true)).duration :=
  start_offset_within_bounds _ 5 (by decide)
    (by
      have hm : selectedMemo (World.mk true true
          [⟨.null, .null, .real 0, .real 40, .text "a"⟩] 0 5 0 true true ⟨true, ""⟩
          (fun _ => 1) (fun _ => true) (fun _ => 20000) true ⟨true, ""⟩ true)
          = ⟨"Untitled", 0, 40, "a"⟩ := by decide
      rw [gen_range_mem, hm, max_start]
      norm_num)

/-- Claim C4: the title falls back from `ZENCRYPTEDTITLE` to `ZCUSTOMLABEL`
to `"Untitled"`, exactly in that order; the mapped memo of a well-typed
row carries this resolved title. -/
theorem title_fallback_precedence :
    (∀ s o, resolveTitle (some s) o = s)
    ∧ (∀ s, resolveTitle none (some s) = s)
    ∧ resolveTitle none none = "Untitled"
    ∧ ∀ c0 c1 d dur p, rowToMemo ⟨c0, c1, .real d, .real dur, .text p⟩
        = some ⟨resolveTitle c0.getString c1.getString, d, dur, p⟩ :=
  ⟨fun _ _ => rfl, fun _ => rfl, rfl, fun _ _ _ _ _ => rfl⟩

/-- Claim C5: the timestamp conversion adds the Core Data epoch offset of
978307200 seconds: stored `0.0` maps to the Unix timestamp of
2001-01-01T00:00:00Z, and stored `-978307200.0` maps to the Unix
timestamp of 1970-01-01T00:00:00Z. -/
theorem core_data_epoch_offset :
    (∀ ts : ℚ, core_data_to_unix_timestamp ts = f64_as_i64 (ts + 978307200))
    ∧ core_data_to_unix_timestamp 0 = civilToUnixSeconds 2001 1 1 0 0 0
    ∧ core_data_to_unix_timestamp (-978307200) = civilToUnixSeconds 1970 1 1 0 0 0 := by
  refine ⟨fun ts => rfl, ?_, ?_⟩
  · have h : civilToUnixSeconds 2001 1 1 0 0 0 = 978307200 := by decide
    rw [h]
    simp [core_data_to_unix_timestamp, f64_as_i64]
  · have h : civilToUnixSeconds 1970 1 1 0 0 0 = 0 := by decide
    rw [h]
    norm_num [core_data_to_unix_timestamp, f64_as_i64]

/-- Claim C9: a queried row whose date, duration or path column fails type
conversion is silently dropped: inserting such a row anywhere in the
table leaves the result unchanged, and the function still succeeds. -/
theorem malformed_rows_silently_dropped (t1 t2 : List DbRow) (r : DbRow)
    (h : r.zdate.getReal = none ∨ r.zduration.getReal = none ∨ r.zpath.getString = none) :
    get_all_voice_memos true (t1 ++ r :: t2) = get_all_voice_memos true (t1 ++ t2)
    ∧ ∃ memos, get_all_voice_memos true (t1 ++ r :: t2) = .ok memos := by
  have hnone : rowToMemo r = none := rowToMemo_eq_none h
  refine ⟨?_, ⟨_, rfl⟩⟩
  rw [get_all_voice_memos, get_all_voice_memos, if_pos rfl, if_pos rfl]
  unfold queryRows
  rw [List.filter_append, List.filter_append, List.filter_cons]
  cases hfil : durationFilter r <;>
    simp [List.filterMap_append, List.filterMap_cons, hnone]

/-- Witness for claim C9: a row with a NULL path is dropped. -/
theorem malformed_rows_silently_dropped_witness :
    get_all_voice_memos true ([] ++ ⟨.null, .null, .real 5, .real 40, .null⟩ :: [])
      = get_all_voice_memos true ([] ++ [])
    ∧ ∃ memos, get_all_voice_memos true
        ([] ++ ⟨.null, .null, .real 5, .real 40, .null⟩ :: []) = .ok memos :=
  malformed_rows_silently_dropped [] [] ⟨.null, .null, .real 5, .real 40, .null⟩
    (Or.inr (Or.inr rfl))

/-- Claim C10: when the converted Unix timestamp of the selected memo is
outside the representable range of chrono, the displayed datetime — and
hence the date rendered into the metadata comment of the video — falls back to
`Utc::now()`; the resolution itself is total and cannot abort. -/
theorem out_of_range_date_falls_back_to_now (w : World)
    (h : chronoFromTimestamp (core_data_to_unix_timestamp (selectedMemo w).date) = none) :
    selectedDatetime w = w.now
    ∧ videoComment (selectedDatetime w) = videoComment w.now := by
  have he : selectedDatetime w = w.now := by
    rw [selectedDatetime, resolveDatetime, h]
    rfl
  exact ⟨he, by rw [he]⟩

/-- Witness for claim C10: a memo dated `10^13` (Core Data seconds) converts
to a Unix timestamp beyond the range of chrono, and `now = 777` is displayed. -/
theorem out_of_range_date_falls_back_to_now_witness :
    selectedDatetime (World.mk true true
        [⟨.null, .null, .real 10000000000000, .real 31, .text "a"⟩] 0 0 777 true true
        ⟨true, ""⟩ (fun _ => 1) (fun _ => true) (fun _ => 20000) true ⟨true, ""⟩ true) = 777
    ∧ videoComment (selectedDatetime (World.mk true true
        [⟨.null, .null, .real 10000000000000, .real 31, .text "a"⟩] 0 0 777 true true
        ⟨true, ""⟩ (fun _ => 1) (fun _ => true) (fun _ => 20000) true ⟨true, ""⟩ true))
      = videoComment 777 :=
  out_of_range_date_falls_back_to_now _ (by
    have hm : selectedMemo (World.mk true true
        [⟨.null, .null, .real 10000000000000, .real 31, .text "a"⟩] 0 0 777 true true
        ⟨true, ""⟩ (fun _ => 1) (fun _ => true) (fun _ => 20000) true ⟨true, ""⟩ true)
        = ⟨"Untitled", 10000000000000, 31, "a"⟩ := by decide
    rw [hm]
    have hts : core_data_to_unix_timestamp 10000000000000 = 10000978307200 := by
      norm_num [core_data_to_unix_timestamp, f64_as_i64]
    rw [hts]
    decide)

/-- Claim C6: with a healthy but candidate-free database, `main` prints the
"no memos" message and returns `Ok(())` (exit status zero) having done
nothing else: the whole trace is the load message, the read-only open, the
query, and the report. -/
theorem empty_candidates_clean_exit (w : World)
    (hh : w.homeSet = true) (hdb : w.dbOk = true) (hempty : candidatesOf w = []) :
    mainRun w = ([.printOut "Loading Voice Memos library...", .openDb true, .sqlQuery,
      .printErr "No voice memos found (longer than 30 seconds)."], .success) := by
  have hmemo : (queryRows w.table).filterMap rowToMemo = [] := hempty
  rw [mainRun, hh]
  simp [get_all_voice_memos, hdb, hmemo]

/-- Witness for claim C6: the empty table. -/
theorem empty_candidates_clean_exit_witness :
    mainRun (World.mk true true [] 0 0 0 true true ⟨true, ""⟩
        (fun _ => 1) (fun _ => true) (fun _ => 20000) true ⟨true, ""⟩ true)
      = ([.printOut "Loading Voice Memos library...", .openDb true, .sqlQuery,
        .printErr "No voice memos found (longer than 30 seconds)."], .success) :=
  empty_candidates_clean_exit _ rfl rfl rfl

/-- Whether an effect is harmless to the source store: it writes only
temporary files, and if it opens the database it does so read-only. -/
def Effect.benign : Effect → Bool
  | .openDb ro => ro
  | e => e.writes.all fun t => !t.isSource

lemma benign_clean_list (l : List String) :
    (l.map fun img => Effect.removeFile (Target.tempFile img)).all Effect.benign = true := by
  induction l with
  | nil => rfl
  | cons a l ih => simp only [List.map_cons, List.all_cons, ih, Bool.and_true]; rfl

lemma benign_downloadLoop (w : World) : ∀ n i,
    (downloadLoop w i n).1.all Effect.benign = true := by
  intro n
  induction n with
  | zero => intro i; rfl
  | succ n ih =>
    intro i
    rw [downloadLoop]
    by_cases h1 : w.curlOk i = false
    · rw [if_pos h1]; rfl
    · rw [if_neg h1]
      by_cases h2 : w.imageLen i < 10000
      · rw [if_pos h2]; rfl
      · rw [if_neg h2]
        simp only [List.all_cons, ih (i + 1), Bool.and_true]
        rfl

lemma benign_download (w : World) (c : Nat) :
    (download_public_domain_images w c).1.all Effect.benign = true := by
  simp only [download_public_domain_images]
  rcases hd : (downloadLoop w 0 c).2 with e | imgs <;>
    simp only [List.all_cons, List.all_append, benign_downloadLoop w c 0,
      Bool.true_and, Bool.and_true] <;> rfl

lemma benign_create (w : World) (a : String) (imgs : List String) (dt : Int) :
    (create_video_with_images w a imgs dt).1.all Effect.benign = true := by
  simp only [create_video_with_images]
  by_cases h1 : w.concatWriteOk = false
  · rw [if_pos h1]; rfl
  · rw [if_neg h1]
    by_cases h2 : w.ffmpegVideo.success = false
    · rw [if_pos h2]; rfl
    · rw [if_neg h2]; rfl

lemma benign_extract (w : World) (p : String) (s d : ℚ) (dt : Int) :
    (extract_and_create_video w p s d dt).1.all Effect.benign = true := by
  simp only [extract_and_create_video]
  by_cases h1 : w.tempDirOk = false
  · rw [if_pos h1]; rfl
  · rw [if_neg h1]
    by_cases h2 : w.ffmpegExtract.success = false
    · rw [if_pos h2]; rfl
    · rw [if_neg h2]
      rcases hd : (download_public_domain_images w 6).2 with e | imgs
      · simp only [List.all_append, benign_download w 6, Bool.and_true]
        rfl
      · rcases hc : (create_video_with_images w "audio_clip.m4a" imgs dt).2
          with e | video <;> (try simp only [hc]) <;>
          simp only [List.all_append, benign_download w 6,
            benign_create w "audio_clip.m4a" imgs dt, benign_clean_list,
            List.all_cons, Bool.and_true, Bool.true_and, Bool.and_self] <;> rfl

lemma benign_mainRun (w : World) : (mainRun w).1.all Effect.benign = true := by
  simp only [mainRun]
  by_cases h1 : w.homeSet = false
  · rw [if_pos h1]; rfl
  · rw [if_neg h1]
    rcases hq : get_all_voice_memos w.dbOk w.table with e | memos
    · rfl
    · dsimp only
      by_cases h2 : memos.isEmpty = true
      · rw [if_pos h2]; rfl
      · rw [if_neg h2]
        by_cases h3 : w.fileExists = false
        · rw [if_pos h3]; rfl
        · rw [if_neg h3]
          rcases hr : (extract_and_create_video w
              (memos.getD (w.memoIdx % memos.length) defaultMemo).path
              w.startDraw 30 (selectedDatetime w)).2 with e | video <;> (try simp only [hr]) <;>
            simp only [List.cons_append, List.all_cons, List.all_append,
              benign_extract, Bool.and_true, Bool.true_and] <;> rfl

lemma benign_spec {e : Effect} (hb : e.benign = true) :
    (∀ t ∈ e.writes, t.isSource = false) ∧ ∀ ro, e = .openDb ro → ro = true := by
  cases e <;> simp_all [Effect.benign, Effect.writes, List.all_eq_true]

/-- Claim C3: on every execution path, no effect of `main` writes to the
source database or to a source recording, and every database open is
read-only. -/
theorem sources_never_written (w : World) (e : Effect) (he : e ∈ (mainRun w).1) :
    (∀ t ∈ e.writes, t.isSource = false) ∧ ∀ ro, e = .openDb ro → ro = true :=
  benign_spec (List.all_eq_true.mp (benign_mainRun w) e he)

/-- Witness for claim C3: the load message of a run with `HOME` unset. -/
theorem sources_never_written_witness :
    (∀ t ∈ (Effect.printOut "Loading Voice Memos library...").writes, t.isSource = false)
    ∧ ∀ ro, Effect.printOut "Loading Voice Memos library..." = .openDb ro → ro = true :=
  sources_never_written (World.mk false true [] 0 0 0 true true ⟨true, ""⟩
      (fun _ => 1) (fun _ => true) (fun _ => 20000) true ⟨true, ""⟩ true)
    _ (by simp [mainRun])

/-- Claim C7: when the media file of the selected memo is missing locally, `main`
prints the two explanatory messages and returns `Ok(())` (exit status
zero), and the trace contains no subprocess invocation of any kind. -/
theorem missing_file_clean_exit (w : World)
    (hh : w.homeSet = true) (hdb : w.dbOk = true) (hne : candidatesOf w ≠ [])
    (hex : w.fileExists = false) :
    (mainRun w).2 = .success
    ∧ (∀ e ∈ (mainRun w).1,
        (∀ c a rs ws, e ≠ .runProcess c a rs ws) ∧ ∀ c a rs, e ≠ .spawnProcess c a rs)
    ∧ Effect.printErr "The recording may be in iCloud and not downloaded locally."
        ∈ (mainRun w).1
    ∧ Effect.printErr ("Error: Recording file not found at " ++ (selectedMemo w).path)
        ∈ (mainRun w).1 := by
  have hemp : ((queryRows w.table).filterMap rowToMemo).isEmpty = false := by
    cases hc : (queryRows w.table).filterMap rowToMemo with
    | nil => exact absurd hc hne
    | cons a l => rfl
  refine ⟨?_, ?_, ?_, ?_⟩ <;>
    simp [mainRun, hh, hdb, get_all_voice_memos, hemp, hex, selectedMemo, candidatesOf]

/-- Witness for claim C7: one 40-second memo whose file is absent. -/
theorem missing_file_clean_exit_witness :
    (mainRun (World.mk true true [⟨.null, .null, .real 0, .real 40, .text "a"⟩] 0 5 0
        false true ⟨true, ""⟩ (fun _ => 1) (fun _ => true) (fun _ => 20000) true
        ⟨true, ""⟩ true)).2 = .success
    ∧ (∀ e ∈ (mainRun (World.mk true true [⟨.null, .null, .real 0, .real 40, .text "a"⟩]
          0 5 0 false true ⟨true, ""⟩ (fun _ => 1) (fun _ => true) (fun _ => 20000) true
          ⟨true, ""⟩ true)).1,
        (∀ c a rs ws, e ≠ .runProcess c a rs ws) ∧ ∀ c a rs, e ≠ .spawnProcess c a rs)
    ∧ Effect.printErr "The recording may be in iCloud and not downloaded locally."
        ∈ (mainRun (World.mk true true [⟨.null, .null, .real 0, .real 40, .text "a"⟩]
          0 5 0 false true ⟨true, ""⟩ (fun _ => 1) (fun _ => true) (fun _ => 20000) true
          ⟨true, ""⟩ true)).1
    ∧ Effect.printErr ("Error: Recording file not found at "
          ++ (selectedMemo (World.mk true true [⟨.null, .null, .real 0, .real 40, .text "a"⟩]
          0 5 0 false true ⟨true, ""⟩ (fun _ => 1) (fun _ => true) (fun _ => 20000) true
          ⟨true, ""⟩ true)).path)
        ∈ (mainRun (World.mk true true [⟨.null, .null, .real 0, .real 40, .text "a"⟩]
          0 5 0 false true ⟨true, ""⟩ (fun _ => 1) (fun _ => true) (fun _ => 20000) true
          ⟨true, ""⟩ true)).1 :=
  missing_file_clean_exit _ rfl rfl (by decide) rfl

lemma downloadLoop_ok (w : World) : ∀ n i,
    (∀ j, i ≤ j → j < i + n → w.curlOk j = true ∧ 10000 ≤ w.imageLen j) →
    ∃ imgs, (downloadLoop w i n).2 = .ok imgs := by
  intro n
  induction n with
  | zero => exact fun i _ => ⟨[], rfl⟩
  | succ n ih =>
    intro i h
    obtain ⟨hc, hl⟩ := h i le_rfl (by omega)
    obtain ⟨imgs, himgs⟩ := ih (i + 1) fun j hj1 hj2 => h j (by omega) (by omega)
    refine ⟨("image_" ++ toString i ++ ".jpg") :: imgs, ?_⟩
    rw [downloadLoop]
    rw [if_neg (by simp [hc]), if_neg (by omega)]
    simp [himgs, Except.map]

lemma download_ok (w : World)
    (hdl : ∀ j, j < 6 → w.curlOk j = true ∧ 10000 ≤ w.imageLen j) :
    ∃ imgs, (download_public_domain_images w 6).2 = .ok imgs := by
  obtain ⟨imgs, himgs⟩ := downloadLoop_ok w 6 0 fun j _ hj2 => hdl j (by omega)
  exact ⟨imgs, by simp [download_public_domain_images, himgs]⟩

lemma extract_audio_failure (w : World) (hdir : w.tempDirOk = true)
    (hfail : w.ffmpegExtract.success = false) (p : String) (s d : ℚ) (dt : Int) :
    (extract_and_create_video w p s d dt).2
      = .error ("ffmpeg audio extraction failed: " ++ w.ffmpegExtract.stderr) := by
  simp [extract_and_create_video, hdir, hfail]

lemma extract_video_failure (w : World) (hdir : w.tempDirOk = true)
    (hextract : w.ffmpegExtract.success = true)
    (hdl : ∀ j, j < 6 → w.curlOk j = true ∧ 10000 ≤ w.imageLen j)
    (hconcat : w.concatWriteOk = true) (hvid : w.ffmpegVideo.success = false)
    (p : String) (s d : ℚ) (dt : Int) :
    (extract_and_create_video w p s d dt).2
      = .error ("ffmpeg video creation failed: " ++ w.ffmpegVideo.stderr) := by
  obtain ⟨imgs, himgs⟩ := download_ok w hdl
  have hcv : ∀ a, (create_video_with_images w a imgs dt).2
      = .error ("ffmpeg video creation failed: " ++ w.ffmpegVideo.stderr) := fun a => by
    simp [create_video_with_images, hconcat, hvid]
  simp [extract_and_create_video, hdir, hextract, himgs, hcv]

/-- Claim C8: a non-zero exit of either `ffmpeg` invocation (clip extraction
or video creation) makes `main` return the error built from that
captured stderr of that invocation, so the process exits non-zero. -/
theorem transcoder_failure_surfaces_stderr (w : World)
    (hh : w.homeSet = true) (hdb : w.dbOk = true) (hne : candidatesOf w ≠ [])
    (hex : w.fileExists = true) (hdir : w.tempDirOk = true) :
    (w.ffmpegExtract.success = false →
      (mainRun w).2 = .failure ("ffmpeg audio extraction failed: " ++ w.ffmpegExtract.stderr))
    ∧ (w.ffmpegExtract.success = true →
      (∀ j, j < 6 → w.curlOk j = true ∧ 10000 ≤ w.imageLen j) →
      w.concatWriteOk = true →
      w.ffmpegVideo.success = false →
      (mainRun w).2 = .failure ("ffmpeg video creation failed: " ++ w.ffmpegVideo.stderr)) := by
  have hemp : ((queryRows w.table).filterMap rowToMemo).isEmpty = false := by
    cases hc : (queryRows w.table).filterMap rowToMemo with
    | nil => exact absurd hc hne
    | cons a l => rfl
  constructor
  · intro hfail
    simp [mainRun, hh, hdb, get_all_voice_memos, hemp, hex,
      extract_audio_failure w hdir hfail]
  · intro hextract hdl hconcat hvid
    simp [mainRun, hh, hdb, get_all_voice_memos, hemp, hex,
      extract_video_failure w hdir hextract hdl hconcat hvid]

/-- Witness for claim C8: one world where clip extraction fails with stderr
`"boom"`, one where it succeeds and video creation fails with `"vboom"`. -/
theorem transcoder_failure_surfaces_stderr_witness :
    (mainRun (World.mk true true [⟨.null, .null, .real 0, .real 40, .text "a"⟩] 0 5 0
        true true ⟨false, "boom"⟩ (fun _ => 1) (fun _ => true) (fun _ => 20000) true
        ⟨true, ""⟩ true)).2 = .failure ("ffmpeg audio extraction failed: " ++ "boom")
    ∧ (mainRun (World.mk true true [⟨.null, .null, .real 0, .real 40, .text "a"⟩] 0 5 0
        true true ⟨true, ""⟩ (fun _ => 1) (fun _ => true) (fun _ => 20000) true
        ⟨false, "vboom"⟩ true)).2 = .failure ("ffmpeg video creation failed: " ++ "vboom") :=
  ⟨(transcoder_failure_surfaces_stderr _ rfl rfl (by decide) rfl rfl).1 rfl,
   (transcoder_failure_surfaces_stderr _ rfl rfl (by decide) rfl rfl).2 rfl
     (by decide) rfl rfl⟩

end VoiceMemoClip
